import Mathlib

/-
Verification of the temp-mail chat bot (files mail_gw.py and main.py).

Modelling conventions:
- Python strings are List Char.
- A Python exception that a function may raise and that is not caught is an
  Except error value; PyError lists the exception classes that matter.
- The HTTP layer is abstracted: each provider-client function of mail_gw.py
  takes an HttpResult describing what the requests call produced, namely
  either a requests.RequestException (covering network errors and the
  raise_for_status of a bad status) or a parsed JSON payload.
- The mailbox store module (database import in main.py) is not part of the
  source tree; its operations are modelled from the spec where marked.
-/

namespace TempMail

/-- PyError lists the Python exception kinds relevant to the claims. -/
inductive PyError where
  | indexError
  deriving DecidableEq, Repr

/-- HttpResult is the outcome of one requests call followed by
raise_for_status: exn covers any requests.RequestException, ok carries the
parsed JSON payload of a successful response. -/
inductive HttpResult (α : Type) where
  | exn
  | ok (v : α)

/- ---------------------------------------------------------------------
   mail_gw.py, the Provider Client
   --------------------------------------------------------------------- -/

/-- get_domains (mail_gw.py lines 8-17). The payload is the list of the
domain fields of the hydra:member array. The try block catches only
requests.RequestException, so indexing an empty hydra:member list with [0]
raises an uncaught IndexError. -/
def get_domains (r : HttpResult (List (List Char))) :
    Except PyError (Option (List Char)) :=
  match r with
  | .exn => .ok none
  | .ok doms =>
    match doms with
    | [] => .error .indexError
    | d :: _ => .ok (some d)

/-- create_account (mail_gw.py lines 19-31): returns the parsed account
record on success, None on any RequestException. The payload type is
abstract because callers only test it for truthiness and an id key. -/
def create_account {α : Type} (r : HttpResult α) : Option α :=
  match r with
  | .exn => none
  | .ok a => some a

/-- get_auth_token (mail_gw.py lines 33-45): token string on success, None
on any RequestException. -/
def get_auth_token (r : HttpResult (List Char)) : Option (List Char) :=
  match r with
  | .exn => none
  | .ok t => some t

/-- MsgSummary is one element of the hydra:member array that the messages
endpoint returns; the fields used by main.py are id, from.name, subject. -/
structure MsgSummary where
  id : List Char
  fromName : List Char
  subject : List Char
  deriving DecidableEq, Repr

/-- get_messages (mail_gw.py lines 47-56): message list on success, the
empty list on any RequestException. -/
def get_messages (r : HttpResult (List MsgSummary)) : List MsgSummary :=
  match r with
  | .exn => []
  | .ok l => l

/-- MessageDetail is the JSON of one full message as used by
handle_view_message_callback: from.address, to, subject, createdAt, and the
optional text and html fields (an absent or JSON-null field is none), plus
the attachments list. -/
structure MessageDetail where
  fromAddr : List Char
  toAddrs : List (List Char)
  subject : List Char
  createdAt : List Char
  text : Option (List Char)
  html : Option (List (List Char))
  attachments : List (List Char)
  deriving DecidableEq, Repr

/-- get_message_by_id (mail_gw.py lines 58-67): message detail on success,
None on any RequestException. -/
def get_message_by_id (r : HttpResult MessageDetail) : Option MessageDetail :=
  match r with
  | .exn => none
  | .ok m => some m

/-- delete_account_by_id (mail_gw.py lines 69-83): the HTTP delete request
is commented out in the source, so the body performs no request and the
function is the constant True; the except branch returning False is dead
code. It takes no HttpResult because no request is made. -/
def delete_account_by_id (token accountId : List Char) : Bool :=
  true

/- ---------------------------------------------------------------------
   Tag stripping: re.sub applied with the pattern <[^<]+?> (main.py
   line 290).  A match starts at a literal <, consumes at least one
   character that is not <, lazily, and ends at the first possible >.
   Hence a tag runs from a < to the first > that has at least one
   non-< character after the <; if another < appears first the match
   attempt at this position fails and scanning resumes one character on.
   re.sub removes every such non-overlapping match left to right.
   The functions below are given fuel so that they are structurally
   recursive and reduce in the kernel; the wrapper supplies enough fuel.
   --------------------------------------------------------------------- -/

/-- matchTagAux scans the characters after the first consumed character of
a lazy [^<]+? attempt: the first > closes the match (returning the rest of
the input), a < aborts the attempt, anything else is consumed. -/
def matchTagAux : List Char → Option (List Char)
  | [] => none
  | c :: rest =>
    if c = '>' then some rest
    else if c = '<' then none
    else matchTagAux rest

/-- matchTag takes the characters after an opening < and returns the
remainder after the closing > of the lazy match, or none if no match
starts here. The first character must exist and must not be < (it may be
>, since [^<] admits >). -/
def matchTag : List Char → Option (List Char)
  | [] => none
  | c :: rest => if c = '<' then none else matchTagAux rest

/-- stripTagsFuel is the scanning loop of re.sub with pattern <[^<]+?>:
at a < that starts a match the whole match is dropped and scanning resumes
after it; otherwise the character is kept. Fuel bounds the recursion depth;
every step consumes at least one input character, so fuel = input length
suffices. -/
def stripTagsFuel : Nat → List Char → List Char
  | 0, l => l
  | _ + 1, [] => []
  | fuel + 1, c :: rest =>
    if c = '<' then
      match matchTag rest with
      | some rem => stripTagsFuel fuel rem
      | none => c :: stripTagsFuel fuel rest
    else c :: stripTagsFuel fuel rest

/-- stripTags is re.sub applied with pattern <[^<]+?> and empty replacement
(main.py line 290). -/
def stripTags (l : List Char) : List Char :=
  stripTagsFuel l.length l

/-- rendered_body is the body shown to the user: the tag-stripped content
truncated by the Python slice [:3000] (main.py lines 290 and 298). -/
def rendered_body (content : List Char) : List Char :=
  (stripTags content).take 3000

/- ---------------------------------------------------------------------
   The Mailbox Store.  The database module is imported by main.py but is
   not in the source tree, so its operations are modelled from the spec
   (section 4.2): a durable table of Mailbox rows keyed by address, at
   most one live row per address.
   --------------------------------------------------------------------- -/

/-- EmailRow is one Mailbox row of the store: owner, address, password and
provider account id (spec section 3). -/
structure EmailRow where
  owner : Nat
  address : List Char
  password : List Char
  mailGwId : List Char
  deriving DecidableEq, Repr

/-- Modelled from the spec: the store module is absent from the source
tree; find(address) returns the (owner_id, password, provider_account_id)
of the row keyed by address, or none (spec section 4.2, db.find_email). -/
def find_email (store : List EmailRow) (address : List Char) :
    Option (Nat × List Char × List Char) :=
  match store.find? (fun r => r.address == address) with
  | none => none
  | some r => some (r.owner, r.password, r.mailGwId)

/-- Modelled from the spec: delete(address) removes the row keyed by
address and is idempotent (spec section 4.2, db.delete_email). -/
def delete_email (store : List EmailRow) (address : List Char) :
    List EmailRow :=
  store.filter (fun r => r.address != address)

/-- Modelled from the spec: put inserts or overwrites the Mailbox keyed by
address, keeping at most one row per address, with insertion order
preserved for the rest (spec section 4.2, db.add_email). -/
def add_email (store : List EmailRow) (owner : Nat)
    (address password mailGwId : List Char) : List EmailRow :=
  store.filter (fun r => r.address != address) ++
    [{ owner := owner, address := address, password := password,
       mailGwId := mailGwId }]

/- ---------------------------------------------------------------------
   Python string helpers used by get_custom_username (main.py line 97):
   update.message.text.strip().lower().
   --------------------------------------------------------------------- -/

/-- isPySpace is the ASCII part of the whitespace set removed by the
Python str.strip() with no argument. -/
def isPySpace (c : Char) : Bool :=
  c = ' ' || c = '\t' || c = '\n' || c = '\x0d' || c = '\x0b' || c = '\x0c'

/-- pyStrip is str.strip(): leading and trailing whitespace removed. -/
def pyStrip (l : List Char) : List Char :=
  ((l.dropWhile isPySpace).reverse.dropWhile isPySpace).reverse

/-- pyLower is str.lower() on the ASCII range: every upper-case letter is
mapped to its lower-case form and every other character kept. -/
def pyLower (l : List Char) : List Char :=
  l.map Char.toLower

/- ---------------------------------------------------------------------
   The handlers of main.py.  Each handler runs against the store and an
   oracle describing what the provider calls made during the run return;
   chat output is abstracted into an outcome value.
   --------------------------------------------------------------------- -/

/-- MailGw is the oracle for the provider calls a handler makes during one
run: authToken is the result of mail.get_auth_token(address, password),
messages the result of mail.get_messages(token), getMessage the result of
mail.get_message_by_id(token, message_id). -/
structure MailGw where
  authToken : List Char → List Char → Option (List Char)
  messages : List Char → List MsgSummary
  getMessage : List Char → List Char → Option MessageDetail

/-- DeleteOutcome is the user-visible outcome of handle_delete_callback. -/
inductive DeleteOutcome where
  | noSuchEmail
  | deleted
  deriving DecidableEq, Repr

/-- handle_delete_callback (main.py lines 221-235): resolve the row, get a
fresh token, call the provider delete only when a token was obtained and
discard its result, then always delete the row locally. Returns the
outcome and the new store. -/
def handle_delete_callback (p : MailGw) (store : List EmailRow)
    (email_address : List Char) : DeleteOutcome × List EmailRow :=
  match find_email store email_address with
  | none => (.noSuchEmail, store)
  | some (_, password, mail_gw_id) =>
    let token := p.authToken email_address password
    let _remote := match token with
      | some t => some (delete_account_by_id t mail_gw_id)
      | none => none
    (.deleted, delete_email store email_address)

/-- InboxOutcome is the user-visible outcome of handle_inbox_callback;
shown carries the list of messages turned into selection buttons. -/
inductive InboxOutcome where
  | noSuchEmail
  | authFailed
  | emptyInbox
  | shown (msgs : List MsgSummary)
  deriving DecidableEq, Repr

/-- handle_inbox_callback (main.py lines 237-264). The requester parameter
models the identity behind the button press; the source never reads it
(the handler only receives the address from the callback data), which is
exactly the ownership gap of spec section 4.3. The displayed list is
messages[:10] in provider order. -/
def handle_inbox_callback (p : MailGw) (store : List EmailRow)
    (requester : Nat) (email_address : List Char) : InboxOutcome :=
  match find_email store email_address with
  | none => .noSuchEmail
  | some (_, password, _) =>
    match p.authToken email_address password with
    | none => .authFailed
    | some token =>
      let messages := p.messages token
      if messages.isEmpty then .emptyInbox
      else .shown (messages.take 10)

/-- selectBody is the expression of main.py line 288:
message_content.get(text) or message_content.get(html, defaultList)[0],
where the default is a one-element list holding the empty string. The or
falls through when get(text) is None or the empty string; indexing an
empty html list raises IndexError. -/
def selectBody (m : MessageDetail) : Except PyError (List Char) :=
  match m.text with
  | some t => if t.isEmpty then htmlFallback m else .ok t
  | none => htmlFallback m
where
  /-- htmlFallback is message_content.get(html, defaultList)[0]. -/
  htmlFallback (m : MessageDetail) : Except PyError (List Char) :=
    match m.html with
    | none => .ok []
    | some [] => .error .indexError
    | some (h :: _) => .ok h

/-- ViewOutcome is the user-visible outcome of
handle_view_message_callback; shown carries the rendered fields of the
message and whether the attachment notice is appended. -/
inductive ViewOutcome where
  | noSuchEmail
  | authFailed
  | fetchFailed
  | shown (fromAddr : List Char) (toAddrs : List (List Char))
      (subject : List Char) (createdAt : List Char)
      (body : List Char) (attachNote : Bool)
  deriving DecidableEq, Repr

/-- handle_view_message_callback (main.py lines 266-311): resolve the row,
authenticate fresh, fetch the message, select the body, strip tags,
truncate to 3000, and append the attachment notice when the attachments
list is non-empty. An IndexError from the body selection propagates: the
handler has no try block. -/
def handle_view_message_callback (p : MailGw) (store : List EmailRow)
    (message_id email_address : List Char) :
    Except PyError ViewOutcome :=
  match find_email store email_address with
  | none => .ok .noSuchEmail
  | some (_, password, _) =>
    match p.authToken email_address password with
    | none => .ok .authFailed
    | some token =>
      match p.getMessage token message_id with
      | none => .ok .fetchFailed
      | some m =>
        match selectBody m with
        | .error e => .error e
        | .ok content =>
          .ok (.shown m.fromAddr m.toAddrs m.subject m.createdAt
            (rendered_body content) (!m.attachments.isEmpty))

/- ---------------------------------------------------------------------
   Mailbox creation (main.py lines 94-119, get_custom_username).
   --------------------------------------------------------------------- -/

/-- CreateEnv is the oracle for one run of get_custom_username: domain is
the result of mail.get_domains() (already a plain value here, the
successful-call view of the Provider Client), accountId maps the address
and password passed to mail.create_account to the id of the returned
account record when the call succeeds and the record has an id key. -/
structure CreateEnv where
  domain : Option (List Char)
  accountId : List Char → List Char → Option (List Char)

/-- CreateOutcome is the user-visible outcome of get_custom_username. -/
inductive CreateOutcome where
  | domainUnavailable
  | providerRejected
  | created (address : List Char)
  deriving DecidableEq, Repr

/-- get_custom_username (main.py lines 94-119): the caller-supplied text
is stripped then lower-cased, the address is username@domain, and on a
successful provider creation the row is stored. The Python truthiness test
if not domain also rejects an empty domain string. Returns the outcome and
the new store. -/
def get_custom_username (env : CreateEnv) (store : List EmailRow)
    (user_id : Nat) (text password : List Char) :
    CreateOutcome × List EmailRow :=
  let username := pyLower (pyStrip text)
  match env.domain with
  | none => (.domainUnavailable, store)
  | some domain =>
    if domain.isEmpty then (.domainUnavailable, store)
    else
      let email_address := username ++ '@' :: domain
      match env.accountId email_address password with
      | none => (.providerRejected, store)
      | some accId =>
        (.created email_address,
         add_email store user_id email_address password accId)

/- ---------------------------------------------------------------------
   Concrete fixtures used by witnesses and counterexamples.
   --------------------------------------------------------------------- -/

/-- sampleRow is one stored mailbox row. -/
def sampleRow : EmailRow :=
  { owner := 1, address := ("a@b".data), password := ("pw".data),
    mailGwId := ("idx".data) }

/-- sampleMsgs is a one-element provider inbox. -/
def sampleMsgs : List MsgSummary :=
  [{ id := ("1".data), fromName := ("n".data), subject := ("s".data) }]

/-- sampleGw is a provider oracle whose authentication succeeds and whose
inbox is sampleMsgs. -/
def sampleGw : MailGw :=
  { authToken := fun _ _ => some ("tok".data),
    messages := fun _ => sampleMsgs,
    getMessage := fun _ _ => none }

/-- sampleCreateEnv resolves the domain example.com and accepts any
account creation with a fixed id. -/
def sampleCreateEnv : CreateEnv :=
  { domain := some ("example.com".data),
    accountId := fun _ _ => some ("acc1".data) }

/-- sampleMsgEmptyText carries a present but empty text field next to a
non-empty html list. -/
def sampleMsgEmptyText : MessageDetail :=
  { fromAddr := ("f@x".data), toAddrs := [("a@b".data)],
    subject := ("s".data), createdAt := ("t".data),
    text := some [], html := some [("x".data)], attachments := [] }

/-- sampleMsgPlain carries a non-empty text field. -/
def sampleMsgPlain : MessageDetail :=
  { fromAddr := ("f@x".data), toAddrs := [("a@b".data)],
    subject := ("s".data), createdAt := ("t".data),
    text := some ("hi".data), html := some [("ignored".data)],
    attachments := [] }

/-- sampleMsgNoBody carries no text field and a present but empty html
list. -/
def sampleMsgNoBody : MessageDetail :=
  { fromAddr := ("f@x".data), toAddrs := [("a@b".data)],
    subject := ("s".data), createdAt := ("t".data),
    text := none, html := some [], attachments := [] }

/-- sampleGwEmptyHtml is a provider oracle that serves sampleMsgNoBody. -/
def sampleGwEmptyHtml : MailGw :=
  { authToken := fun _ _ => some ("tok".data),
    messages := fun _ => [],
    getMessage := fun _ _ => some sampleMsgNoBody }

/- ---------------------------------------------------------------------
   Helper lemmas.
   --------------------------------------------------------------------- -/

/-- stripTagsFuel is the identity on inputs without an opening angle
bracket, for any sufficient fuel. -/
theorem stripTagsFuel_of_no_open (fuel : Nat) :
    ∀ l : List Char, (∀ c ∈ l, c ≠ '<') → l.length ≤ fuel →
      stripTagsFuel fuel l = l := by
  induction fuel with
  | zero =>
    intro l _ _
    rfl
  | succ n ih =>
    intro l h hl
    cases l with
    | nil => rfl
    | cons c rest =>
      have hc : ¬ c = '<' := h c (List.mem_cons_self _ _)
      have hrest : rest.length ≤ n := by
        simp only [List.length_cons] at hl
        omega
      simp only [stripTagsFuel, if_neg hc]
      rw [ih rest (fun x hx => h x (List.mem_cons_of_mem _ hx)) hrest]

/-- stripTags is the identity on inputs without an opening angle
bracket. -/
theorem stripTags_of_no_open (l : List Char) (h : ∀ c ∈ l, c ≠ '<') :
    stripTags l = l :=
  stripTagsFuel_of_no_open l.length l h le_rfl

/-- After delete_email, the deleted address is no longer found. -/
theorem find_email_delete (store : List EmailRow) (addr : List Char) :
    find_email (delete_email store addr) addr = none := by
  unfold find_email delete_email
  have h : (store.filter fun r => r.address != addr).find?
      (fun r => r.address == addr) = none := by
    rw [List.find?_eq_none]
    intro x hx
    have hmem := (List.mem_filter.mp hx).2
    simp only [bne_iff_ne, ne_eq, decide_not] at hmem
    simp only [beq_iff_eq]
    intro heq
    exact absurd heq (by simpa using hmem)
  rw [h]

/-- After add_email, the stored address is found with the stored owner,
password and provider id. -/
theorem find_email_add (store : List EmailRow) (uid : Nat)
    (addr pw gwid : List Char) :
    find_email (add_email store uid addr pw gwid) addr =
      some (uid, pw, gwid) := by
  unfold find_email add_email
  rw [List.find?_append]
  have h : (store.filter fun r => r.address != addr).find?
      (fun r => r.address == addr) = none := by
    rw [List.find?_eq_none]
    intro x hx
    have hmem := (List.mem_filter.mp hx).2
    simp only [beq_iff_eq]
    intro hne
    simp [hne] at hmem
  rw [h]
  simp [List.find?]

/- ---------------------------------------------------------------------
   Claims.
   --------------------------------------------------------------------- -/

/-- C1, counterexample: get_domains does not return none on an empty
domain catalog; indexing the empty hydra:member list raises an IndexError
that the except clause (which catches only RequestException) does not
handle. -/
theorem get_domains_empty_catalog_raises :
    get_domains (.ok []) = .error .indexError ∧
    get_domains (.ok []) ≠ .ok none := by
  refine ⟨rfl, fun h => ?_⟩
  rw [show get_domains (.ok []) = .error .indexError from rfl] at h
  exact Except.noConfusion h

/-- C1, amended: every Provider Client operation degrades to a no-result
value (none, empty list, or the constant true of the stubbed delete) on a
RequestException, and get_domains returns the first domain of a non-empty
catalog; but an empty domain catalog raises an unhandled IndexError
instead of yielding none. -/
theorem provider_failures_degrade :
    (get_domains .exn = .ok none) ∧
    (∀ d ds, get_domains (.ok (d :: ds)) = .ok (some d)) ∧
    (get_domains (.ok []) = .error .indexError) ∧
    (∀ α : Type, create_account (α := α) .exn = none) ∧
    (get_auth_token .exn = none) ∧
    (get_messages .exn = []) ∧
    (get_message_by_id .exn = none) ∧
    (∀ t a, delete_account_by_id t a = true) :=
  ⟨rfl, fun _ _ => rfl, rfl, fun _ => rfl, rfl, rfl, rfl, fun _ _ => rfl⟩

/-- C2: handle_delete_callback removes the address from the local store
whenever the address is tracked, for every provider oracle, hence in
particular when authentication fails (token none, remote delete skipped)
and whatever the discarded remote delete result is. -/
theorem delete_mailbox_always_removes_locally (p : MailGw)
    (store : List EmailRow) (addr : List Char)
    (h : find_email store addr ≠ none) :
    (handle_delete_callback p store addr).1 = .deleted ∧
    find_email (handle_delete_callback p store addr).2 addr = none := by
  cases hf : find_email store addr with
  | none => exact absurd hf h
  | some v =>
    obtain ⟨uid, pw, gwid⟩ := v
    simp only [handle_delete_callback, hf]
    exact ⟨trivial, find_email_delete store addr⟩

/-- C2, witness: deleting the tracked address of sampleRow leaves a store
in which the address is absent, under sampleGw. -/
theorem delete_mailbox_always_removes_locally_witness :
    find_email [sampleRow] ("a@b".data) ≠ none ∧
    ((handle_delete_callback sampleGw [sampleRow] ("a@b".data)).1 =
        .deleted ∧
      find_email (handle_delete_callback sampleGw [sampleRow]
        ("a@b".data)).2 ("a@b".data) = none) :=
  ⟨by decide,
   delete_mailbox_always_removes_locally sampleGw [sampleRow]
     ("a@b".data) (by decide)⟩

/-- C3: the outcome of handle_inbox_callback is identical for any two
requesters presenting the same address: the handler never reads the
requester identity, so ownership is not re-validated. -/
theorem inbox_fetch_requester_independent (p : MailGw)
    (store : List EmailRow) (r₁ r₂ : Nat) (addr : List Char) :
    handle_inbox_callback p store r₁ addr =
      handle_inbox_callback p store r₂ addr :=
  rfl

/-- C4: whenever the tag-stripped body exceeds 3000 characters, the shown
body is exactly its first 3000 characters. -/
theorem body_truncated_to_3000 (content : List Char)
    (h : 3000 < (stripTags content).length) :
    rendered_body content = (stripTags content).take 3000 ∧
    (rendered_body content).length = 3000 := by
  refine ⟨rfl, ?_⟩
  unfold rendered_body
  rw [List.length_take]
  omega

/-- C4, witness: a 5000-character body without markup renders as exactly
3000 characters. -/
theorem body_truncated_to_3000_witness :
    3000 < (stripTags (List.replicate 5000 'a')).length ∧
    (rendered_body (List.replicate 5000 'a')).length = 3000 := by
  have hs : stripTags (List.replicate 5000 'a') =
      List.replicate 5000 'a' :=
    stripTags_of_no_open _ (by
      intro c hc
      rw [List.eq_of_mem_replicate hc]
      decide)
  have h : 3000 < (stripTags (List.replicate 5000 'a')).length := by
    rw [hs, List.length_replicate]
    omega
  exact ⟨h, (body_truncated_to_3000 _ h).2⟩

/-- C5: tag-stripping the body of nested paragraph and bold markup yields
the plain text. -/
theorem strip_tags_example_hi_there :
    stripTags (("<p>Hi <b>there</b></p>").data) = ("Hi there").data := by
  decide

/-- C6: when the inbox is non-empty, the displayed choice set is exactly
the first 10 messages in provider order, hence at most 10 entries, and a
list of 10 or fewer is shown in full. -/
theorem inbox_shows_first_ten (p : MailGw) (store : List EmailRow)
    (requester uid : Nat) (addr pw gwid tok : List Char)
    (hf : find_email store addr = some (uid, pw, gwid))
    (ha : p.authToken addr pw = some tok)
    (hm : p.messages tok ≠ []) :
    handle_inbox_callback p store requester addr =
      .shown ((p.messages tok).take 10) ∧
    ((p.messages tok).take 10).length ≤ 10 ∧
    ((p.messages tok).length ≤ 10 →
      (p.messages tok).take 10 = p.messages tok) := by
  refine ⟨?_, ?_, fun hle => List.take_of_length_le hle⟩
  · have hne : (p.messages tok).isEmpty = false := by
      rw [List.isEmpty_eq_false]
      exact hm
    simp only [handle_inbox_callback, hf, ha, hne]
    rfl
  · rw [List.length_take]
    omega

/-- C6, witness: the one-message inbox of sampleGw is shown in full. -/
theorem inbox_shows_first_ten_witness :
    find_email [sampleRow] ("a@b".data) =
      some (1, ("pw".data), ("idx".data)) ∧
    sampleGw.authToken ("a@b".data) ("pw".data) = some ("tok".data) ∧
    sampleGw.messages ("tok".data) ≠ [] ∧
    handle_inbox_callback sampleGw [sampleRow] 42 ("a@b".data) =
      .shown ((sampleGw.messages ("tok".data)).take 10) ∧
    (sampleGw.messages ("tok".data)).take 10 =
      sampleGw.messages ("tok".data) := by
  have h := inbox_shows_first_ten sampleGw [sampleRow] 42 1
    ("a@b".data) ("pw".data) ("idx".data) ("tok".data)
    (by decide) rfl (by decide)
  exact ⟨by decide, rfl, by decide, h.1, h.2.2 (by decide)⟩

/-- C7: a successful custom creation stores the address built from the
stripped, lower-cased caller text joined to the resolved domain, and the
row is found under that address with the owner, password and provider
id. -/
theorem create_mailbox_roundtrip (env : CreateEnv)
    (store : List EmailRow) (uid : Nat) (text password d gwid : List Char)
    (hd : env.domain = some d) (hne : d.isEmpty = false)
    (hacc : env.accountId (pyLower (pyStrip text) ++ '@' :: d) password =
      some gwid) :
    (get_custom_username env store uid text password).1 =
      .created (pyLower (pyStrip text) ++ '@' :: d) ∧
    find_email (get_custom_username env store uid text password).2
      (pyLower (pyStrip text) ++ '@' :: d) = some (uid, password, gwid) := by
  simp only [get_custom_username, hd, hne, hacc, Bool.false_eq_true,
    if_false]
  exact ⟨trivial, find_email_add store uid _ password gwid⟩

/-- C7, witness: local part alice with domain example.com stores exactly
the address alice at example.com for its owner. -/
theorem create_mailbox_roundtrip_witness :
    sampleCreateEnv.domain = some ("example.com".data) ∧
    pyLower (pyStrip ("alice".data)) ++ '@' :: ("example.com".data) =
      ("alice@example.com".data) ∧
    (get_custom_username sampleCreateEnv [] 7 ("alice".data)
        ("pw".data)).1 = .created ("alice@example.com".data) ∧
    find_email (get_custom_username sampleCreateEnv [] 7 ("alice".data)
        ("pw".data)).2 ("alice@example.com".data) =
      some (7, ("pw".data), ("acc1".data)) := by
  have haddr : pyLower (pyStrip ("alice".data)) ++
      '@' :: ("example.com".data) = ("alice@example.com".data) := by decide
  have h := create_mailbox_roundtrip sampleCreateEnv [] 7
    ("alice".data) ("pw".data) ("example.com".data) ("acc1".data)
    rfl (by decide) rfl
  rw [haddr] at h
  exact ⟨rfl, haddr, h.1, h.2⟩

/-- C8, counterexample: a message whose text field is present but empty
is rendered from the html list, not from the text field: the Python or
falls through on the empty string, so the rendered body is not the
present plain-text value. -/
theorem body_prefers_text_counterexample :
    sampleMsgEmptyText.text = some [] ∧
    selectBody sampleMsgEmptyText = .ok ("x".data) ∧
    selectBody sampleMsgEmptyText ≠ .ok [] := by
  refine ⟨rfl, rfl, fun h => ?_⟩
  rw [show selectBody sampleMsgEmptyText = .ok ("x".data) from rfl] at h
  injection h with h2
  exact absurd h2 (by decide)

/-- C8, amended: the rendered body is taken from the plain-text field when
that field is present and non-empty; otherwise, including when the
plain-text field is present but empty, it is the first element of the
HTML-body list. -/
theorem body_selection_amended (m : MessageDetail) :
    (∀ t, m.text = some t → t ≠ [] →
      selectBody m = .ok t) ∧
    ((m.text = none ∨ m.text = some []) →
      ∀ h hs, m.html = some (h :: hs) → selectBody m = .ok h) := by
  constructor
  · intro t ht hne
    have hE : t.isEmpty = false := by
      rw [List.isEmpty_eq_false]
      exact hne
    simp [selectBody, ht, hE]
  · intro htext h hs hh
    rcases htext with ht | ht <;>
      simp [selectBody, ht, selectBody.htmlFallback, hh]

/-- C8, witness: a non-empty text field is preferred, and an empty text
field falls through to the first html element. -/
theorem body_selection_amended_witness :
    selectBody sampleMsgPlain = .ok ("hi".data) ∧
    selectBody sampleMsgEmptyText = .ok ("x".data) :=
  ⟨(body_selection_amended sampleMsgPlain).1 _ rfl (by decide),
   (body_selection_amended sampleMsgEmptyText).2 (Or.inr rfl) _ _ rfl⟩

/-- C9: the provider delete is a stub: with its HTTP request commented
out it returns true for every token and account id, so no failure outcome
is reachable and no request is made (the definition takes no HTTP
outcome, unlike every live operation). -/
theorem delete_account_constant_true :
    ∀ token accountId : List Char,
      delete_account_by_id token accountId = true :=
  fun _ _ => rfl

/-- C10: when the fetched message has no truthy text field and a present
but empty html list, the view handler propagates an IndexError: the body
selection indexes an empty list and the handler has no try block. -/
theorem empty_html_raises_index_error (p : MailGw)
    (store : List EmailRow) (msgId addr : List Char) (uid : Nat)
    (pw gwid tok : List Char) (m : MessageDetail)
    (hf : find_email store addr = some (uid, pw, gwid))
    (ha : p.authToken addr pw = some tok)
    (hg : p.getMessage tok msgId = some m)
    (ht : m.text = none ∨ m.text = some [])
    (hh : m.html = some []) :
    handle_view_message_callback p store msgId addr =
      .error .indexError := by
  have hsel : selectBody m = .error .indexError := by
    rcases ht with h | h <;>
      simp [selectBody, h, selectBody.htmlFallback, hh]
  simp [handle_view_message_callback, hf, ha, hg, hsel]

/-- C10, witness: the handler raises the IndexError on a concrete stored
mailbox whose provider serves a message with empty html and no text. -/
theorem empty_html_raises_index_error_witness :
    sampleMsgNoBody.text = none ∧
    sampleMsgNoBody.html = some [] ∧
    handle_view_message_callback sampleGwEmptyHtml [sampleRow]
      ("m1".data) ("a@b".data) = .error .indexError :=
  ⟨rfl, rfl,
   empty_html_raises_index_error sampleGwEmptyHtml [sampleRow]
     ("m1".data) ("a@b".data) 1 ("pw".data) ("idx".data) ("tok".data)
     sampleMsgNoBody (by decide) rfl rfl (Or.inl rfl) rfl⟩

end TempMail
